import Mathlib

/-!
Verification of the FarmSense / Harvest Horizon farming simulation.

The development shallowly embeds the scoring engine of `app.py`
(class `FarmingSimulator` and class `NASADataFetcher`), the variant engine of
`game_engine.py`, and the board-game solution-card handler of `pygame_game.py`.
Python numbers are modelled as exact rationals (`ℚ`): every arithmetic
operation the code performs on its data (sums, divisions by small powers of
ten, halving of integer differences) is exact in binary floating point for the
magnitudes involved, and `round(x, n)` is modelled as decimal
round-half-to-even, the idealization Python documents.
-/

namespace FarmSense

/-- Round-half-to-even on `ℚ`, the tie-breaking rule of Python `round`:
at a tie (fractional part exactly 1/2) pick the even neighbour, otherwise
round to the nearest integer. -/
def rndHalfEven (m : ℚ) : ℤ :=
  if Int.fract m = 1/2 then (if 2 ∣ ⌊m⌋ then ⌊m⌋ else ⌊m⌋ + 1) else round m

/-- Python `round(q, n)`: scale by `10 ^ n`, round half-to-even, scale back. -/
def roundTo (n : ℕ) (q : ℚ) : ℚ :=
  (rndHalfEven (q * 10 ^ n) : ℚ) / 10 ^ n

namespace App

/-- The four per-day value sequences of `nasa_data['properties']['parameter']`
(dict values in insertion = chronological order). -/
structure NasaParams where
  T2M : List ℚ
  PRECTOTCORR : List ℚ
  GWETROOT : List ℚ
  ALLSKY_SFC_SW_DWN : List ℚ

/-- The dict returned by `FarmingSimulator.analyze_conditions` (app.py:144-151). -/
structure Analysis where
  avg_temperature : ℚ
  avg_precipitation : ℚ
  avg_soil_moisture : ℚ
  temp_data : List ℚ
  precip_data : List ℚ
  soil_data : List ℚ
deriving DecidableEq

/-- The single failure kind of the analysis step: `sum(xs) / len(xs)` on an
empty sequence raises `ZeroDivisionError` in Python — this is the condition
the specification names `EmptySeries`. -/
inductive SummErr where
  | emptySeries
deriving DecidableEq

/-- `FarmingSimulator.analyze_conditions` (app.py:135-151).  `None` (or falsy)
`nasa_data` returns the empty dict, modelled as `.ok none`; with data present
the three averages are computed in the order the dict literal evaluates them,
each division raising on an empty sequence. -/
def analyze_conditions (nasa_data : Option NasaParams) :
    Except SummErr (Option Analysis) :=
  match nasa_data with
  | none => .ok none
  | some p =>
    if p.T2M.length = 0 then .error .emptySeries
    else if p.PRECTOTCORR.length = 0 then .error .emptySeries
    else if p.GWETROOT.length = 0 then .error .emptySeries
    else .ok (some
      { avg_temperature := roundTo 1 (p.T2M.sum / p.T2M.length)
        avg_precipitation := roundTo 2 (p.PRECTOTCORR.sum / p.PRECTOTCORR.length)
        avg_soil_moisture := roundTo 2 (p.GWETROOT.sum / p.GWETROOT.length)
        temp_data := p.T2M.take 10
        precip_data := p.PRECTOTCORR.take 10
        soil_data := p.GWETROOT.take 10 })

/-- Projection used to state facts about the analysis an
`analyze_conditions` call produced. -/
def analysis_of : Except SummErr (Option Analysis) → Option Analysis
  | .ok (some a) => some a
  | _ => none

def msgLowSoil : String := "⚠️ Low soil moisture detected - consider increasing irrigation"

def msgLowRain : String := "☀️ Low rainfall period - crops may need supplemental water"

def msgHighTemp : String := "🌡️ High temperatures - increase irrigation to compensate"

def msgOverwater : String := "💧 High moisture levels - reduce irrigation to prevent overwatering"

def msgOptimal : String := "✅ Conditions are optimal for current crop"

/-- `FarmingSimulator.generate_recommendations` (app.py:153-170): start from an
empty list, append each warning whose condition holds, and fall back to the
single optimal message when nothing was appended. -/
def generate_recommendations (a : Analysis) : List String :=
  let recs : List String := []
  let recs := if a.avg_soil_moisture < 3/10 then recs ++ [msgLowSoil] else recs
  let recs := if a.avg_precipitation < 2 then recs ++ [msgLowRain] else recs
  let recs := if a.avg_temperature > 30 then recs ++ [msgHighTemp] else recs
  let recs := if a.avg_soil_moisture > 1/2 ∧ a.avg_precipitation > 5 then recs ++ [msgOverwater] else recs
  if recs = [] then [msgOptimal] else recs

/-- The `optimal` entry of a scenario (app.py:287-309). -/
structure Optimal where
  irrigation : ℚ
  fertilizer : ℚ

/-- Irrigation branch of `calculate_yield` (app.py:179-192), as the signed
amount the branch adds to `base_yield`. -/
def irrigation_adjustment (soil optIrrigation irrigation : ℚ) : ℚ :=
  if soil < 3/10 then
    (if irrigation ≥ 50 then 15 else -30)
  else if soil > 1/2 then
    (if irrigation ≤ 30 then 20 else -25)
  else
    max 0 (20 - |irrigation - optIrrigation| / 2)

/-- Fertilizer branch of `calculate_yield` (app.py:194-203), as the signed
amount the if/elif chain adds to `base_yield` (no branch taken adds 0). -/
def fertilizer_adjustment (optFertilizer fertilizer : ℚ) : ℚ :=
  let fert_diff := |fertilizer - optFertilizer|
  if fert_diff ≤ 10 then 25
  else if fert_diff ≤ 20 then 10
  else if fertilizer > 80 then -15
  else if fertilizer < 20 then -20
  else 0

/-- Headline plus restated data and decisions of
`FarmingSimulator._generate_feedback` (app.py:218-239), joined by newlines.
Numeric rendering is idealized by `toString` on `ℚ`; no claim depends on it. -/
def generate_feedback (yield_pct : ℚ) (a : Analysis) (irr fert : ℚ) : String :=
  let headline :=
    if yield_pct > 120 then "🎉 Outstanding! You mastered NASA data interpretation!"
    else if yield_pct > 100 then "✅ Excellent work! Your decisions were well-informed."
    else if yield_pct > 85 then "👍 Good job! Some room for optimization."
    else "📚 Review the NASA data more carefully next time."
  let sep := "\n"
  String.intercalate sep
    [headline,
     "NASA Data Summary:",
     "• Avg Temperature: " ++ toString a.avg_temperature ++ "°C",
     "• Avg Soil Moisture: " ++ toString a.avg_soil_moisture,
     "• Avg Precipitation: " ++ toString a.avg_precipitation ++ " mm/day",
     "Your Decisions:",
     "• Irrigation: " ++ toString irr ++ " units",
     "• Fertilizer: " ++ toString fert ++ " units"]

/-- The dict returned by `calculate_yield` (app.py:211-216). -/
structure YieldResult where
  yield_pct : ℚ
  water_usage : ℚ
  fert_cost : ℚ
  feedback : String

/-- `FarmingSimulator.calculate_yield` (app.py:172-216) given the analysis of
the session data: `base_yield = 100`, plus the irrigation branch, plus the
fertilizer branch (the two `+=` accumulations factored as explicit addends),
clamped to `[0, 150]`, with costs and feedback. -/
def calculate_yield (analysis : Analysis) (optimal : Optimal)
    (irrigation fertilizer : ℚ) : YieldResult :=
  let base_yield : ℚ := 100
  let base_yield := base_yield +
    irrigation_adjustment analysis.avg_soil_moisture optimal.irrigation irrigation
  let base_yield := base_yield + fertilizer_adjustment optimal.fertilizer fertilizer
  let yield_pct := max 0 (min 150 base_yield)
  { yield_pct := yield_pct
    water_usage := irrigation * 10
    fert_cost := fertilizer * 5
    feedback := generate_feedback yield_pct analysis irrigation fertilizer }

end App

namespace Sample

/-- State of the global `np.random` stream: an abstract sequence of uniform
draws in `[0,1)` and a cursor; `np.random.random()` reads the value at the
cursor and advances it. -/
structure Rng where
  stream : ℕ → ℚ
  pos : ℕ

/-- One dict comprehension of `_get_sample_data`: values for day indices
`i, i+1, …` for `count` days, each day consuming one draw. -/
def genFrom (f : ℕ → ℚ → ℚ) (i : ℕ) : (count : ℕ) → Rng → List ℚ × Rng
  | 0, r => ([], r)
  | count + 1, r =>
    let v := f i (r.stream r.pos)
    let rest := genFrom f (i + 1) count ⟨r.stream, r.pos + 1⟩
    (v :: rest.1, rest.2)

/-- The four per-day sequences of the synthesized
`properties.parameter` payload of `_get_sample_data`. -/
structure SampleSeries where
  T2M : List ℚ
  PRECTOTCORR : List ℚ
  GWETROOT : List ℚ
  ALLSKY_SFC_SW_DWN : List ℚ
deriving DecidableEq

/-- `NASADataFetcher._get_sample_data` of app.py (lines 107-122): the four
dict comprehensions are evaluated in source order — T2M, PRECTOTCORR,
GWETROOT, ALLSKY_SFC_SW_DWN — and every one of them calls
`np.random.random()` once per date, so the values depend on the ambient
random stream, not on the day index alone. -/
def get_sample_data (days : ℕ) (r : Rng) : SampleSeries × Rng :=
  let t2m := genFrom (fun i u => 20 + ((i % 10 : ℕ) : ℚ) + u * 3) 0 days r
  let pr := genFrom (fun i u => 5/2 + ((i % 5 : ℕ) : ℚ) + u) 0 days t2m.2
  let gw := genFrom (fun i u => 3/10 + ((i % 3 : ℕ) : ℚ) * (1/10) + u * (1/10)) 0 days pr.2
  let sw := genFrom (fun _ u => 11/2 + u) 0 days gw.2
  (⟨t2m.1, pr.1, gw.1, sw.1⟩, sw.2)

/-- `NASADataFetcher._get_sample_data` of game_engine.py (lines 42-54):
fixed 30-day formulas in the day index only.  It takes (and returns) the
random-stream state to make explicit that it never consumes a draw. -/
def ge_get_sample_data (r : Rng) : SampleSeries × Rng :=
  (⟨(List.range 30).map (fun i => 20 + ((i % 10 : ℕ) : ℚ)),
    (List.range 30).map (fun i => 5/2 + ((i % 5 : ℕ) : ℚ)),
    (List.range 30).map (fun i => 3/10 + ((i % 3 : ℕ) : ℚ) * (1/10)),
    (List.range 30).map (fun _ => 11/2)⟩, r)

end Sample

namespace GE

/-- The dict returned by `FarmingSimulator.analyze_conditions` of
game_engine.py (lines 101-106). -/
structure GEAnalysis where
  avg_temperature : ℚ
  avg_precipitation : ℚ
  avg_soil_moisture : ℚ
  recommendation : List String
deriving DecidableEq

def geLowSoil : String := "⚠️ Low soil moisture - consider irrigation"

def geLowRain : String := "☀️ Low rainfall - monitor water needs"

def geHighTemp : String := "🌡️ High temperatures - crops may need extra water"

def geOverwater : String := "💧 High moisture - reduce irrigation to avoid overwatering"

def geOptimal : String := "✅ Conditions are optimal"

/-- `FarmingSimulator._generate_recommendation` of game_engine.py
(lines 108-121). -/
def ge_generate_recommendation (temp precip soil : ℚ) : List String :=
  let recs : List String := []
  let recs := if soil < 3/10 then recs ++ [geLowSoil] else recs
  let recs := if precip < 2 then recs ++ [geLowRain] else recs
  let recs := if temp > 30 then recs ++ [geHighTemp] else recs
  let recs := if soil > 1/2 ∧ precip > 5 then recs ++ [geOverwater] else recs
  if recs = [] then [geOptimal] else recs

/-- Body of game_engine.py `analyze_conditions` (lines 90-106) for present
data: three averages (recommendations are generated from the unrounded
averages), the divisions raising on empty sequences. -/
def ge_analyze_core (p : App.NasaParams) : Except App.SummErr GEAnalysis :=
  if p.T2M.length = 0 then .error .emptySeries
  else if p.PRECTOTCORR.length = 0 then .error .emptySeries
  else if p.GWETROOT.length = 0 then .error .emptySeries
  else
    let avg_temp := p.T2M.sum / p.T2M.length
    let avg_precip := p.PRECTOTCORR.sum / p.PRECTOTCORR.length
    let avg_soil := p.GWETROOT.sum / p.GWETROOT.length
    .ok { avg_temperature := roundTo 1 avg_temp
          avg_precipitation := roundTo 2 avg_precip
          avg_soil_moisture := roundTo 2 avg_soil
          recommendation := ge_generate_recommendation avg_temp avg_precip avg_soil }

/-- `FarmingSimulator.analyze_conditions` of game_engine.py (lines 85-106);
falsy `nasa_data` returns the empty dict, modelled as `.ok none`. -/
def ge_analyze_conditions (nasa_data : Option App.NasaParams) :
    Except App.SummErr (Option GEAnalysis) :=
  match nasa_data with
  | none => .ok none
  | some p => (ge_analyze_core p).map some

/-- The fields of game_engine.py `FarmingSimulator` that `calculate_yield`
reads or writes: the loaded data, the two recorded decisions, and the two
cost fields it assigns. -/
structure GEState where
  nasa_data : Option App.NasaParams
  irrigation : ℚ
  fertilizer : ℚ
  water_usage : ℚ
  fertilizer_cost : ℚ

/-- `FarmingSimulator._generate_feedback` of game_engine.py (lines 169-183);
numeric rendering idealized by `toString` on `ℚ`, no claim depends on it. -/
def ge_generate_feedback (yield_pct : ℚ) (a : GEAnalysis) : String :=
  let headline :=
    if yield_pct > 110 then "🎉 Excellent! You used NASA data effectively!"
    else if yield_pct > 90 then "👍 Good job! Your decisions aligned with the data."
    else "📚 Review the NASA data - it shows important patterns."
  let sep := "\n"
  String.intercalate sep
    [headline,
     "Avg Temperature: " ++ toString a.avg_temperature ++ "°C",
     "Avg Soil Moisture: " ++ toString a.avg_soil_moisture]

/-- `FarmingSimulator.calculate_yield` of game_engine.py (lines 127-167):
on missing data it returns `0, "No data available"` at once, before any
field assignment; otherwise it scores against the (rounded) analyzed soil
moisture with this file's own point values, assigns `water_usage` and
`fertilizer_cost`, and returns the clamped yield with feedback built from
the unclamped accumulator. -/
def ge_calculate_yield (s : GEState) : Except App.SummErr ((ℚ × String) × GEState) :=
  match s.nasa_data with
  | none => .ok ((0, "No data available"), s)
  | some nd =>
    match ge_analyze_core nd with
    | .error e => .error e
    | .ok analysis =>
      let base_yield : ℚ := 100
      let soil_moisture := analysis.avg_soil_moisture
      let irrigation := s.irrigation
      let base_yield :=
        if soil_moisture < 3/10 then
          (if irrigation ≥ 50 then base_yield + 10 else base_yield - 30)
        else if soil_moisture > 1/2 then
          (if irrigation ≤ 30 then base_yield + 15 else base_yield - 20)
        else base_yield
      let fertilizer := s.fertilizer
      let base_yield :=
        if 40 ≤ fertilizer ∧ fertilizer ≤ 60 then base_yield + 20
        else if fertilizer > 80 then base_yield - 10
        else if fertilizer < 20 then base_yield - 15
        else base_yield
      let s := { s with water_usage := irrigation * 10,
                        fertilizer_cost := fertilizer * 5 }
      let feedback := ge_generate_feedback base_yield analysis
      .ok ((max 0 (min 150 base_yield), feedback), s)

end GE

namespace Board

/-- A player entry of `game_state.json` (pygame_game.py:44-47). -/
structure Player where
  name : String
  position : ℕ
  cash : ℤ
  sustainability : ℤ
  assets : List String
deriving DecidableEq

/-- A solution option of a problem card; `sustainability_change` is the
optional `effect["sustainability_change"]` entry. -/
structure Solution where
  title : String
  cost : ℤ
  sustainability_change : Option ℤ

/-- The parts of `HarvestHorizonGame.state` that `select_solution` and
`end_turn` touch (saving to disk is a side effect outside the model). -/
structure BoardState where
  current_player : ℕ
  players : List Player
  game_state : String
  current_card : Option String

/-- `HarvestHorizonGame.end_turn` (pygame_game.py:205-207). -/
def end_turn (s : BoardState) : BoardState :=
  { s with current_player := (s.current_player + 1) % s.players.length }

/-- `HarvestHorizonGame.select_solution` (pygame_game.py:186-194): if the
current player can afford the card, pay its cost, clamp the sustainability
update to `[1,10]` when the effect carries one, reset the phase, and pass the
turn; otherwise nothing changes.  A bad player index (Python `IndexError`)
is `none`. -/
def select_solution (s : BoardState) (sol : Solution) : Option BoardState :=
  match s.players.get? s.current_player with
  | none => none
  | some player =>
    if sol.cost ≤ player.cash then
      let player := { player with cash := player.cash - sol.cost }
      let player :=
        match sol.sustainability_change with
        | some c => { player with
            sustainability := max 1 (min 10 (player.sustainability + c)) }
        | none => player
      some (end_turn { s with players := s.players.set s.current_player player,
                              game_state := "ROLL",
                              current_card := none })
    else some s

end Board

namespace App

/-- Written from the specification's words (§4.2 `score`, step 1): the
irrigation term of the score, branched on the soil-moisture regime.  To be
compared with the engine embedded from the source. -/
def spec_irrigation_term (avgSoilMoisture optIrrigation irrigation : ℚ) : ℚ :=
  if avgSoilMoisture < 3/10 then
    (if irrigation ≥ 50 then 15 else -30)
  else if avgSoilMoisture > 1/2 then
    (if irrigation ≤ 30 then 20 else -25)
  else
    max 0 (20 - |irrigation - optIrrigation| / 2)

/-- Written from the specification's words (§4.2 `score`, step 2): the
fertilizer term as a sequential first-match-wins chain on
`fertDiff = |decision.fertilizer - optimal.fertilizer|`. -/
def spec_fertilizer_term (optFertilizer fertilizer : ℚ) : ℚ :=
  let fertDiff := |fertilizer - optFertilizer|
  if fertDiff ≤ 10 then 25
  else if fertDiff ≤ 20 then 10
  else if fertilizer > 80 then -15
  else if fertilizer < 20 then -20
  else 0

/-- Written from the specification's words (§4.2 `recommend`): four rules
evaluated independently in the listed order, every matching rule firing, with
a single optimal message exactly when none fired. -/
def spec_recommend (a : Analysis) : List String :=
  let fired :=
    (if a.avg_soil_moisture < 3/10 then [msgLowSoil] else []) ++
    (if a.avg_precipitation < 2 then [msgLowRain] else []) ++
    (if a.avg_temperature > 30 then [msgHighTemp] else []) ++
    (if a.avg_soil_moisture > 1/2 ∧ a.avg_precipitation > 5 then [msgOverwater] else [])
  if fired = [] then [msgOptimal] else fired

/-- The condition summary of the specification's concrete scenario. -/
def scenarioAnalysis : Analysis :=
  { avg_temperature := 32
    avg_precipitation := 3/2
    avg_soil_moisture := 1/4
    temp_data := []
    precip_data := []
    soil_data := [] }

/-- A one-day series whose soil-moisture value 0.333 has a mean (0.333) that
rounds to 0.33, strictly below the minimum of the input sequence. -/
def cexParams : NasaParams :=
  { T2M := [25]
    PRECTOTCORR := [3]
    GWETROOT := [333/1000]
    ALLSKY_SFC_SW_DWN := [6] }

end App

namespace Sample

/-- A concrete random stream (draw `n` is `n / (n + 1) ∈ [0,1)`) at cursor 0,
used to exhibit the value dependence of app.py `_get_sample_data` on the
ambient random state. -/
def cexRng : Rng :=
  { stream := fun n => (n : ℚ) / ((n : ℚ) + 1)
    pos := 0 }

end Sample

namespace Board

/-- A concrete two-player board state in the CARD phase, as initialized by
`load_state` (pygame_game.py:42-52). -/
def wState : BoardState :=
  { current_player := 0
    players := [⟨"Player 1", 0, 10000, 7, []⟩, ⟨"Player 2", 0, 10000, 7, []⟩]
    game_state := "CARD"
    current_card := none }

/-- A concrete affordable solution whose effect lowers sustainability by 2. -/
def wSolution : Solution :=
  { title := "Drip Irrigation"
    cost := 500
    sustainability_change := some (-2) }

end Board

namespace GE

/-- A concrete simulator state with no loaded climate data. -/
def wGEState : GEState :=
  { nasa_data := none
    irrigation := 50
    fertilizer := 50
    water_usage := 0
    fertilizer_cost := 0 }

end GE

namespace App

/-- C1: for every condition summary and decision, the irrigation term inside
the clamped score of `calculate_yield` is exactly the soil-moisture-regime
formula of the specification: `+15`/`-30` below 0.3 depending on
`irrigation ≥ 50`, `+20`/`-25` above 0.5 depending on `irrigation ≤ 30`, and
`max 0 (20 - |irrigation - optimal| / 2)` in the 0.3-0.5 band. -/
theorem calculate_yield_irrigation_term_spec (a : Analysis) (o : Optimal)
    (irrigation fertilizer : ℚ) :
    (calculate_yield a o irrigation fertilizer).yield_pct =
      max 0 (min 150 (100 +
        spec_irrigation_term a.avg_soil_moisture o.irrigation irrigation +
        fertilizer_adjustment o.fertilizer fertilizer)) := rfl

/-- C2: for every condition summary and decision, the fertilizer term inside
the clamped score of `calculate_yield` is exactly the specification's
sequential first-match chain on `fertDiff`: `+25` for `fertDiff ≤ 10`, else
`+10` for `fertDiff ≤ 20`, else `-15` for `fertilizer > 80`, else `-20` for
`fertilizer < 20`, else `0`. -/
theorem calculate_yield_fertilizer_term_spec (a : Analysis) (o : Optimal)
    (irrigation fertilizer : ℚ) :
    (calculate_yield a o irrigation fertilizer).yield_pct =
      max 0 (min 150 (100 +
        irrigation_adjustment a.avg_soil_moisture o.irrigation irrigation +
        spec_fertilizer_term o.fertilizer fertilizer)) := rfl

/-- C3: for every condition summary, scenario optimum and decision, the
yield percentage returned by `calculate_yield` lies in `[0, 150]`. -/
theorem calculate_yield_clamped (a : Analysis) (o : Optimal)
    (irrigation fertilizer : ℚ) :
    0 ≤ (calculate_yield a o irrigation fertilizer).yield_pct ∧
      (calculate_yield a o irrigation fertilizer).yield_pct ≤ 150 :=
  ⟨le_max_left 0 _, max_le (by norm_num) (min_le_left _ _)⟩

/-- C4: `generate_recommendations` evaluates its four warning rules
independently in the fixed order low moisture, low rainfall, high
temperature, overwatering risk — every matching rule fires, the output order
is the evaluation order, and exactly one optimal message is emitted when no
rule fires. -/
theorem generate_recommendations_spec (a : Analysis) :
    generate_recommendations a = spec_recommend a := by
  unfold generate_recommendations spec_recommend
  split_ifs <;> simp_all

/-- C5: on the summary `avgSoilMoisture = 0.25`, `avgPrecipitation = 1.5`,
`avgTemperature = 32`, with `optimal = {irrigation 45, fertilizer 50}` and the
decision `irrigation 60, fertilizer 50`, the yield is exactly 140, and the
recommendations are exactly the low-soil, low-rainfall and high-temperature
warnings in that order. -/
theorem scenario_yield_140_and_three_warnings :
    (calculate_yield scenarioAnalysis ⟨45, 50⟩ 60 50).yield_pct = 140 ∧
      generate_recommendations scenarioAnalysis =
        [msgLowSoil, msgLowRain, msgHighTemp] := by
  constructor
  · simp only [calculate_yield, irrigation_adjustment, fertilizer_adjustment,
      scenarioAnalysis]
    norm_num [min_def, max_def]
  · simp only [generate_recommendations, scenarioAnalysis]
    norm_num
    intro h
    simp at h

/-- C6: analyzing a loaded series whose sequences are all of zero length
surfaces the definite `emptySeries` error to the caller — no substituted
value, no other outcome. -/
theorem analyze_conditions_empty_series (p : NasaParams)
    (hT : p.T2M = []) (_hP : p.PRECTOTCORR = []) (_hS : p.GWETROOT = [])
    (_hA : p.ALLSKY_SFC_SW_DWN = []) :
    analyze_conditions (some p) = .error .emptySeries := by
  simp [analyze_conditions, hT]

/-- Closed instance of the empty-series failure. -/
theorem analyze_conditions_empty_series_witness :
    analyze_conditions (some ⟨[], [], [], []⟩) = .error .emptySeries :=
  analyze_conditions_empty_series ⟨[], [], [], []⟩ rfl rfl rfl rfl

theorem length_mul_le_sum (l : List ℚ) (lo : ℚ) (h : ∀ x ∈ l, lo ≤ x) :
    (l.length : ℚ) * lo ≤ l.sum := by
  induction l with
  | nil => simp
  | cons a t ih =>
    have h1 : lo ≤ a := h a (List.mem_cons_self a t)
    have h2 := ih (fun x hx => h x (List.mem_cons_of_mem a hx))
    simp only [List.length_cons, List.sum_cons]
    push_cast
    linarith

theorem sum_le_length_mul (l : List ℚ) (hi : ℚ) (h : ∀ x ∈ l, x ≤ hi) :
    l.sum ≤ (l.length : ℚ) * hi := by
  induction l with
  | nil => simp
  | cons a t ih =>
    have h1 : a ≤ hi := h a (List.mem_cons_self a t)
    have h2 := ih (fun x hx => h x (List.mem_cons_of_mem a hx))
    simp only [List.length_cons, List.sum_cons]
    push_cast
    linarith

theorem avg_bounds (l : List ℚ) (lo hi : ℚ) (hne : l ≠ [])
    (hlo : ∀ x ∈ l, lo ≤ x) (hhi : ∀ x ∈ l, x ≤ hi) :
    lo ≤ l.sum / l.length ∧ l.sum / l.length ≤ hi := by
  have hlen : (0 : ℚ) < (l.length : ℚ) := by
    exact_mod_cast List.length_pos.mpr hne
  constructor
  · rw [le_div_iff₀ hlen]
    calc lo * (l.length : ℚ) = (l.length : ℚ) * lo := mul_comm _ _
      _ ≤ l.sum := length_mul_le_sum l lo hlo
  · rw [div_le_iff₀ hlen]
    calc l.sum ≤ (l.length : ℚ) * hi := sum_le_length_mul l hi hhi
      _ = hi * (l.length : ℚ) := mul_comm _ _

theorem abs_rndHalfEven_sub (m : ℚ) : |(rndHalfEven m : ℚ) - m| ≤ 1/2 := by
  unfold rndHalfEven
  split_ifs with h1 h2
  · have hm := h1
    unfold Int.fract at hm
    rw [abs_le]
    constructor <;> linarith
  · have hm := h1
    unfold Int.fract at hm
    push_cast
    rw [abs_le]
    constructor <;> linarith
  · rw [abs_sub_comm]
    exact abs_sub_round m

theorem abs_roundTo_sub (n : ℕ) (q : ℚ) :
    |roundTo n q - q| ≤ 1 / (2 * 10 ^ n) := by
  have hpow : (0 : ℚ) < 10 ^ n := by positivity
  have h := abs_rndHalfEven_sub (q * 10 ^ n)
  have h2 : |(rndHalfEven (q * 10 ^ n) : ℚ) - q * 10 ^ n| / 10 ^ n ≤ (1/2) / 10 ^ n :=
    (div_le_div_iff_of_pos_right hpow).mpr h
  unfold roundTo
  have heq : (rndHalfEven (q * 10 ^ n) : ℚ) / 10 ^ n - q
      = ((rndHalfEven (q * 10 ^ n) : ℚ) - q * 10 ^ n) / 10 ^ n := by
    field_simp
    ring
  rw [heq, abs_div, abs_of_pos hpow]
  calc |(rndHalfEven (q * 10 ^ n) : ℚ) - q * 10 ^ n| / 10 ^ n
      ≤ (1/2) / 10 ^ n := h2
    _ = 1 / (2 * 10 ^ n) := by rw [div_div]

/-- C7 as stated is false: on the one-day series `cexParams` the rounded
soil-moisture mean reported by `analyze_conditions` is 0.33, strictly below
0.333 — the minimum (indeed the only) value of the input sequence. -/
theorem summarize_rounded_mean_below_min :
    (analysis_of (analyze_conditions (some cexParams))).map Analysis.avg_soil_moisture
      = some (33/100) ∧ (33/100 : ℚ) < 333/1000 := by
  refine ⟨?_, by norm_num⟩
  simp only [analyze_conditions, analysis_of, cexParams]
  norm_num [roundTo, rndHalfEven, Int.fract, round_eq]

/-- C7 amended: for any loaded series with non-empty sequences, each
unrounded mean lies between any lower and upper bound of its input sequence
(in particular between its minimum and maximum), and the rounded means that
`analyze_conditions` reports stay within those bounds relaxed by half of the
rounding step — 0.05 for temperature (1 decimal), 0.005 for precipitation
and soil moisture (2 decimals). -/
theorem summarize_means_within_half_step (p : NasaParams)
    (loT hiT loP hiP loS hiS : ℚ)
    (hTne : p.T2M ≠ []) (hPne : p.PRECTOTCORR ≠ []) (hSne : p.GWETROOT ≠ [])
    (hTlo : ∀ x ∈ p.T2M, loT ≤ x) (hThi : ∀ x ∈ p.T2M, x ≤ hiT)
    (hPlo : ∀ x ∈ p.PRECTOTCORR, loP ≤ x) (hPhi : ∀ x ∈ p.PRECTOTCORR, x ≤ hiP)
    (hSlo : ∀ x ∈ p.GWETROOT, loS ≤ x) (hShi : ∀ x ∈ p.GWETROOT, x ≤ hiS) :
    analysis_of (analyze_conditions (some p)) = some
      { avg_temperature := roundTo 1 (p.T2M.sum / p.T2M.length)
        avg_precipitation := roundTo 2 (p.PRECTOTCORR.sum / p.PRECTOTCORR.length)
        avg_soil_moisture := roundTo 2 (p.GWETROOT.sum / p.GWETROOT.length)
        temp_data := p.T2M.take 10
        precip_data := p.PRECTOTCORR.take 10
        soil_data := p.GWETROOT.take 10 } ∧
    (loT ≤ p.T2M.sum / p.T2M.length ∧ p.T2M.sum / p.T2M.length ≤ hiT) ∧
    (loP ≤ p.PRECTOTCORR.sum / p.PRECTOTCORR.length ∧
      p.PRECTOTCORR.sum / p.PRECTOTCORR.length ≤ hiP) ∧
    (loS ≤ p.GWETROOT.sum / p.GWETROOT.length ∧
      p.GWETROOT.sum / p.GWETROOT.length ≤ hiS) ∧
    (loT - 1/20 ≤ roundTo 1 (p.T2M.sum / p.T2M.length) ∧
      roundTo 1 (p.T2M.sum / p.T2M.length) ≤ hiT + 1/20) ∧
    (loP - 1/200 ≤ roundTo 2 (p.PRECTOTCORR.sum / p.PRECTOTCORR.length) ∧
      roundTo 2 (p.PRECTOTCORR.sum / p.PRECTOTCORR.length) ≤ hiP + 1/200) ∧
    (loS - 1/200 ≤ roundTo 2 (p.GWETROOT.sum / p.GWETROOT.length) ∧
      roundTo 2 (p.GWETROOT.sum / p.GWETROOT.length) ≤ hiS + 1/200) := by
  have hT0 : ¬ p.T2M.length = 0 := fun h => hTne (List.length_eq_zero.mp h)
  have hP0 : ¬ p.PRECTOTCORR.length = 0 := fun h => hPne (List.length_eq_zero.mp h)
  have hS0 : ¬ p.GWETROOT.length = 0 := fun h => hSne (List.length_eq_zero.mp h)
  have hTb := avg_bounds p.T2M loT hiT hTne hTlo hThi
  have hPb := avg_bounds p.PRECTOTCORR loP hiP hPne hPlo hPhi
  have hSb := avg_bounds p.GWETROOT loS hiS hSne hSlo hShi
  have hTr := abs_roundTo_sub 1 (p.T2M.sum / p.T2M.length)
  have hPr := abs_roundTo_sub 2 (p.PRECTOTCORR.sum / p.PRECTOTCORR.length)
  have hSr := abs_roundTo_sub 2 (p.GWETROOT.sum / p.GWETROOT.length)
  rw [abs_le] at hTr hPr hSr
  norm_num at hTr hPr hSr
  refine ⟨?_, hTb, hPb, hSb, ⟨?_, ?_⟩, ⟨?_, ?_⟩, ⟨?_, ?_⟩⟩
  · simp only [analyze_conditions, analysis_of, if_neg hT0, if_neg hP0, if_neg hS0]
  · linarith [hTb.1, hTr.1]
  · linarith [hTb.2, hTr.2]
  · linarith [hPb.1, hPr.1]
  · linarith [hPb.2, hPr.2]
  · linarith [hSb.1, hSr.1]
  · linarith [hSb.2, hSr.2]

/-- Closed instance of the amended C7 bounds on a one-day series. -/
theorem summarize_means_within_half_step_witness :
    analysis_of (analyze_conditions (some cexParams)) = some
      { avg_temperature := roundTo 1 (cexParams.T2M.sum / cexParams.T2M.length)
        avg_precipitation :=
          roundTo 2 (cexParams.PRECTOTCORR.sum / cexParams.PRECTOTCORR.length)
        avg_soil_moisture :=
          roundTo 2 (cexParams.GWETROOT.sum / cexParams.GWETROOT.length)
        temp_data := cexParams.T2M.take 10
        precip_data := cexParams.PRECTOTCORR.take 10
        soil_data := cexParams.GWETROOT.take 10 } ∧
    ((25 : ℚ) ≤ cexParams.T2M.sum / cexParams.T2M.length ∧
      cexParams.T2M.sum / cexParams.T2M.length ≤ 25) ∧
    ((3 : ℚ) ≤ cexParams.PRECTOTCORR.sum / cexParams.PRECTOTCORR.length ∧
      cexParams.PRECTOTCORR.sum / cexParams.PRECTOTCORR.length ≤ 3) ∧
    ((333/1000 : ℚ) ≤ cexParams.GWETROOT.sum / cexParams.GWETROOT.length ∧
      cexParams.GWETROOT.sum / cexParams.GWETROOT.length ≤ 333/1000) ∧
    ((25 : ℚ) - 1/20 ≤ roundTo 1 (cexParams.T2M.sum / cexParams.T2M.length) ∧
      roundTo 1 (cexParams.T2M.sum / cexParams.T2M.length) ≤ 25 + 1/20) ∧
    ((3 : ℚ) - 1/200 ≤
        roundTo 2 (cexParams.PRECTOTCORR.sum / cexParams.PRECTOTCORR.length) ∧
      roundTo 2 (cexParams.PRECTOTCORR.sum / cexParams.PRECTOTCORR.length) ≤ 3 + 1/200) ∧
    ((333/1000 : ℚ) - 1/200 ≤
        roundTo 2 (cexParams.GWETROOT.sum / cexParams.GWETROOT.length) ∧
      roundTo 2 (cexParams.GWETROOT.sum / cexParams.GWETROOT.length) ≤ 333/1000 + 1/200) :=
  summarize_means_within_half_step cexParams 25 25 3 3 (333/1000) (333/1000)
    (by simp [cexParams]) (by simp [cexParams]) (by simp [cexParams])
    (by simp [cexParams]) (by simp [cexParams]) (by simp [cexParams])
    (by simp [cexParams]) (by simp [cexParams]) (by simp [cexParams])

end App

namespace Sample

theorem genFrom_length (f : ℕ → ℚ → ℚ) (count : ℕ) :
    ∀ (i : ℕ) (r : Rng), ((genFrom f i count r).1).length = count := by
  induction count with
  | zero => intro i r; rfl
  | succ n ih => intro i r; simp [genFrom, ih]

/-- C8 amended: two invocations of the app.py fallback generator with the
same day count always produce series of the same length (the day count) over
the same four variables, whatever the random state; the game_engine.py
fallback generator is fully deterministic — its output is independent of the
random state, so two invocations yield identical values.  The app.py
variant's values, however, depend on the ambient random stream. -/
theorem sample_data_shape_deterministic (days : ℕ) (r r₂ : Rng) :
    ((get_sample_data days r).1.T2M.length = days ∧
      (get_sample_data days r).1.PRECTOTCORR.length = days ∧
      (get_sample_data days r).1.GWETROOT.length = days ∧
      (get_sample_data days r).1.ALLSKY_SFC_SW_DWN.length = days) ∧
    (ge_get_sample_data r).1 = (ge_get_sample_data r₂).1 := by
  refine ⟨⟨?_, ?_, ?_, ?_⟩, rfl⟩ <;>
    simp [get_sample_data, genFrom_length]

/-- C8 as stated is false for the app.py fallback: two successive invocations
with the identical argument `days = 1` on the concrete random stream `cexRng`
return different temperature values, because every invocation consumes fresh
`np.random.random()` draws. -/
theorem sample_data_values_differ :
    (get_sample_data 1 cexRng).1.T2M ≠
      (get_sample_data 1 (get_sample_data 1 cexRng).2).1.T2M := by
  simp only [get_sample_data, genFrom, cexRng]
  norm_num

end Sample

namespace Board

/-- C9: when the acting player can afford a solution whose effect carries a
`sustainability_change`, the player's sustainability after `select_solution`
is the clamp of the updated value into `[1, 10]` — in particular it lies in
`[1, 10]` whatever the prior value and whatever the change. -/
theorem select_solution_sustainability_clamped
    (s : BoardState) (sol : Solution) (p : Player) (c : ℤ)
    (hp : s.players.get? s.current_player = some p)
    (hcash : sol.cost ≤ p.cash)
    (hc : sol.sustainability_change = some c) :
    ((select_solution s sol).bind
        (fun t => t.players.get? s.current_player)).map Player.sustainability
      = some (max 1 (min 10 (p.sustainability + c))) ∧
    1 ≤ max 1 (min 10 (p.sustainability + c)) ∧
    max 1 (min 10 (p.sustainability + c)) ≤ 10 := by
  obtain ⟨hlt, -⟩ := List.get?_eq_some.mp hp
  refine ⟨?_, le_max_left _ _, max_le (by norm_num) (min_le_left _ _)⟩
  simp only [select_solution, end_turn, hp, hc]
  rw [if_pos hcash]
  simp
  exact ⟨_, List.getElem?_set_eq_of_lt _ hlt, rfl⟩

/-- Closed instance of the sustainability clamp: Player 1 pays 500 of 10000
for a solution changing sustainability by -2, landing at 5 ∈ [1, 10]. -/
theorem select_solution_sustainability_clamped_witness :
    ((select_solution wState wSolution).bind
        (fun t => t.players.get? wState.current_player)).map Player.sustainability
      = some (max 1 (min 10 (7 + -2))) ∧
    1 ≤ max 1 (min 10 (7 + -2)) ∧ max 1 (min 10 ((7 : ℤ) + -2)) ≤ 10 :=
  select_solution_sustainability_clamped wState wSolution
    ⟨"Player 1", 0, 10000, 7, []⟩ (-2) rfl (by norm_num [wSolution]) rfl

end Board

namespace GE

/-- C10: with no climate data loaded, game_engine.py `calculate_yield`
returns normally — yield 0 with the message that no data is available — and
the simulator state, in particular `water_usage` and `fertilizer_cost`, is
untouched. -/
theorem ge_calculate_yield_no_data (s : GEState) (h : s.nasa_data = none) :
    ge_calculate_yield s = .ok ((0, "No data available"), s) := by
  simp only [ge_calculate_yield, h]

/-- Closed instance of the no-data path. -/
theorem ge_calculate_yield_no_data_witness :
    ge_calculate_yield wGEState = .ok ((0, "No data available"), wGEState) :=
  ge_calculate_yield_no_data wGEState rfl

end GE

end FarmSense
